import Mathlib

/-!
Shallow embedding of the Text-to-Video repository core:
the client orchestrator `handleGenerate` with its backend registry
`MODELS` and per-backend payload builders (source: the React component),
and the Replicate proxy gateway (source: `functions/index.js`).

JavaScript-specific behaviour (truthiness of strings and `a || b`
fallbacks, `String.prototype.trim`, template interpolation of
`undefined`) is embedded explicitly by the `js...` helpers below.
-/

/-- JS truthiness of a string-or-undefined value: `undefined` and the
empty string are falsy. -/
def jsTruthyS : Option String → Bool
  | none => false
  | some s => !(s == "")

/-- JS `a || b` on string-or-undefined values, as in
`process.env.REPLICATE_API_TOKEN || functions.config().replicate?.token`. -/
def jsOrOpt (a b : Option String) : Option String :=
  if jsTruthyS a then a else b

/-- JS `a || b` on plain strings: the empty string falls back, as in
`req.path.replace(...) || req.path`. -/
def jsOrS (a b : String) : String :=
  if a == "" then b else a

/-- JS `err.detail || fallback`: an absent or empty `detail` yields the
fallback. -/
def jsOrDetail (d : Option String) (fb : String) : String :=
  match d with
  | none => fb
  | some s => if s == "" then fb else s

/-- JS template interpolation of a string-or-undefined value:
`undefined` prints as the string "undefined". -/
def jsInterp : Option String → String
  | none => "undefined"
  | some s => s

/-- JS `String.prototype.trim`: strip leading and trailing whitespace
(as in `inputText.trim()`). Defined over the character list so it
computes in the kernel. -/
def jsTrim (s : String) : String :=
  String.mk (((s.data.dropWhile Char.isWhitespace).reverse.dropWhile Char.isWhitespace).reverse)

/-- Character-level prefix test (the effect of the anchored regex
in `req.path.replace(/^\/api\/replicate/, "")`). -/
def strStarts (s pre : String) : Bool :=
  pre.data.isPrefixOf s.data

/-- Drop the first `n` characters of a string. -/
def strDropN (s : String) (n : Nat) : String :=
  String.mk (s.data.drop n)

/-! ## Payloads and the backend registry (`MODELS`) -/

/-- A scalar JSON value occurring in a request payload. -/
inductive JLeaf where
  | jstr : String → JLeaf
  | jnum : ℚ → JLeaf
  | jbool : Bool → JLeaf
  | jundefined : JLeaf
deriving DecidableEq

/-- A top-level payload field: a scalar, or a one-level nested object
(the `input` object of the source's payload literals). -/
inductive JField where
  | leaf : JLeaf → JField
  | obj : List (String × JLeaf) → JField
deriving DecidableEq

/-- A request payload: the object literal returned by a `payloadBuilder`. -/
abbrev Payload := List (String × JField)

/-- The JS object shorthand `version,` : a present string or `undefined`. -/
def optLeaf : Option String → JLeaf
  | some s => .jstr s
  | none => .jundefined

/-- The tuning options passed to a `payloadBuilder`. -/
structure BuildOpts where
  version : Option String
  guidanceScale : ℚ
  enhancePrompt : Bool

/-- `MODELS['ltx-video'].payloadBuilder` from the source. -/
def ltxPayloadBuilder (prompt : String) (o : BuildOpts) : Payload :=
  [("version", .leaf (optLeaf o.version)),
   ("input", .obj
     [("prompt", .jstr prompt),
      ("aspect_ratio", .jstr "16:9"),
      ("negative_prompt", .jstr "low quality, worst quality, deformed, distorted, watermark"),
      ("guidance_scale", .jnum o.guidanceScale)])]

/-- `MODELS['wan-2.5'].payloadBuilder` from the source. -/
def wanPayloadBuilder (prompt : String) (o : BuildOpts) : Payload :=
  [("input", .obj
     [("prompt", .jstr prompt),
      ("aspect_ratio", .jstr "16:9"),
      ("negative_prompt", .jstr "low quality, worst quality, deformed, distorted, watermark"),
      ("guidance_scale", .jnum o.guidanceScale),
      ("enable_prompt_expansion", .jbool o.enhancePrompt)])]

/-- All field names occurring in a payload (top level and inside the
one-level nested objects). -/
def payloadKeys (p : Payload) : List String :=
  p.foldr (fun kv acc =>
    kv.1 :: (match kv.2 with
             | .obj l => l.map Prod.fst
             | .leaf _ => []) ++ acc) []

/-- A backend registry entry (the `ModelConfig` interface of the source). -/
structure ModelConfig where
  id : String
  name : String
  description : String
  version : Option String
  endpoint : String
  payloadBuilder : String → BuildOpts → Payload
  defaultGuidance : ℚ

/-- The `ltx-video` entry of `MODELS`. -/
def ltxConfig : ModelConfig :=
  { id := "ltx-video"
    name := "Lightricks LTX Video"
    description := "Fast, high-quality video generation"
    version := some "8c47da666861d081eeb4d1261853087de23923a268a69b63febdf5dc1dee08e4"
    endpoint := "/api/replicate/predictions"
    payloadBuilder := ltxPayloadBuilder
    defaultGuidance := 3 }

/-- The `wan-2.5` entry of `MODELS`. -/
def wanConfig : ModelConfig :=
  { id := "wan-2.5"
    name := "Wan 2.5 (Alibaba)"
    description := "Advanced Chinese/English T2V model"
    version := none
    endpoint := "/api/replicate/models/wan-video/wan-2.5-t2v/predictions"
    payloadBuilder := wanPayloadBuilder
    defaultGuidance := 5 }

/-- The closed backend registry `MODELS`. -/
def MODELS : String → Option ModelConfig := fun k =>
  if k == "ltx-video" then some ltxConfig
  else if k == "wan-2.5" then some wanConfig
  else none

/-! ## The job orchestrator (`handleGenerate`) -/

/-- The `output` field of a prediction: a sequence of media locations
or a single one. -/
inductive JOut where
  | arr : List String → JOut
  | single : String → JOut
deriving DecidableEq

/-- A prediction object as returned by submission and poll responses. -/
structure Prediction where
  id : String
  status : String
  output : Option JOut
deriving DecidableEq

/-- An HTTP response observed by the orchestrator: its status code, the
`detail` field of its JSON body (used when not ok), and the prediction
decoded from the same body (used when ok). -/
structure HttpResp where
  status : Nat
  detail : Option String
  pred : Prediction

/-- `response.ok`: status code in the 2xx range. -/
def respOk (r : HttpResp) : Bool :=
  200 ≤ r.status && r.status < 300

/-- The loop guard of `handleGenerate`: a status is terminal exactly
when it is succeeded, failed or canceled. -/
def isTerminal (s : String) : Bool :=
  s == "succeeded" || s == "failed" || s == "canceled"

/-- JS truthiness of `prediction.output`: absent is falsy, an array is
always truthy, a single string is truthy iff non-empty. -/
def jsTruthyOut : Option JOut → Bool
  | none => false
  | some (.arr _) => true
  | some (.single s) => !(s == "")

/-- `Array.isArray(output) ? output[0] : output` — the resolved media
location (absent when the array is empty). -/
def mediaOf : JOut → Option String
  | .arr l => l.head?
  | .single s => some s

/-- The observable outcome of a `handleGenerate` run: the validation /
catch branch calls `setError(msg)`, the success branch calls
`setVideoUrl(url)`; `noResponse` marks a run whose scripted response
stream ended while the loop still wanted to poll. -/
inductive Outcome where
  | errorMsg : String → Outcome
  | videoUrlSet : Option String → Outcome
  | noResponse : Outcome
deriving DecidableEq

/-- The final `if (prediction.status === 'succeeded' && prediction.output)`
branch of `handleGenerate`: extract the media location or throw. -/
def finishPred (p : Prediction) : Outcome :=
  if p.status == "succeeded" && jsTruthyOut p.output then
    .videoUrlSet (match p.output with
                  | some o => mediaOf o
                  | none => none)
  else
    .errorMsg ("Generation failed with status: " ++ p.status)

/-- A network request issued by the client orchestrator. `poll` records
the `setTimeout` wait (in milliseconds) preceding the fetch. -/
inductive NetCall where
  | submit : String → List (String × String) → Payload → NetCall
  | poll : Nat → String → List (String × String) → NetCall
deriving DecidableEq

/-- The headers of a client call. -/
def headersOf : NetCall → List (String × String)
  | .submit _ h _ => h
  | .poll _ _ h => h

/-- The `Authorization` header the client builds from
`import.meta.env.VITE_REPLICATE_API_TOKEN`. -/
def bearerHeader (tok : Option String) : String × String :=
  ("Authorization", "Bearer " ++ jsInterp tok)

/-- Headers of the submission fetch. -/
def submitHeaders (tok : Option String) : List (String × String) :=
  [("Content-Type", "application/json"), bearerHeader tok]

/-- Headers of a poll fetch. -/
def pollHeaders (tok : Option String) : List (String × String) :=
  [bearerHeader tok]

/-- The poll endpoint for a job identifier. -/
def pollUrl (id : String) : String :=
  "/api/replicate/predictions/" ++ id

/-- The `while` loop of `handleGenerate`: while the observed status is
non-terminal, wait 2000 ms, fetch the prediction, and continue with the
next scripted response; a non-ok poll response throws. -/
def pollPhase (tok : Option String) : Prediction → List HttpResp → List NetCall × Outcome
  | p, rs =>
    if isTerminal p.status then ([], finishPred p)
    else
      match rs with
      | [] => ([.poll 2000 (pollUrl p.id) (pollHeaders tok)], .noResponse)
      | r :: rest =>
        if respOk r then
          let next := pollPhase tok r.pred rest
          (.poll 2000 (pollUrl p.id) (pollHeaders tok) :: next.1, next.2)
        else
          ([.poll 2000 (pollUrl p.id) (pollHeaders tok)],
           .errorMsg (jsOrDetail r.detail "Failed to poll status"))

/-- `handleGenerate`, with the network scripted: `sub` is the response
to the submission fetch and `polls` the successive poll responses.
Returns the client requests issued and the observable outcome. -/
def handleGenerate (txt : String) (cfg : ModelConfig) (gs : ℚ) (ep : Bool)
    (tok : Option String) (sub : HttpResp) (polls : List HttpResp) :
    List NetCall × Outcome :=
  if jsTrim txt == "" then
    ([], .errorMsg "Please enter a description for your video")
  else
    let payload := cfg.payloadBuilder txt ⟨cfg.version, gs, ep⟩
    let subCall := NetCall.submit cfg.endpoint (submitHeaders tok) payload
    if !(respOk sub) then
      ([subCall], .errorMsg (jsOrDetail sub.detail "Failed to start video generation"))
    else
      let next := pollPhase tok sub.pred polls
      (subCall :: next.1, next.2)

/-- Specification-side count: polls happen exactly while the observed
status is non-terminal (one more poll is issued when the observation
stream runs out mid-loop). -/
def pollsSpec : String → List String → Nat
  | s, l =>
    if isTerminal s then 0
    else
      match l with
      | [] => 1
      | t :: rest => 1 + pollsSpec t rest

/-! ## The proxy gateway (`functions/index.js`) -/

/-- The credential configuration available to the proxy:
`process.env.REPLICATE_API_TOKEN` and `functions.config().replicate?.token`. -/
structure ProxyConfig where
  envToken : Option String
  cfgToken : Option String

/-- An incoming request to the proxy. -/
structure ProxyReq where
  path : String
  method : String
  body : String

/-- The upstream response (status code plus opaque JSON body), or
absence thereof when the fetch throws. -/
structure UpResp where
  status : Nat
  body : String

/-- The body the proxy sends back: the fixed configuration-error text
(`res.send`), the upstream JSON passed through, or the transport-error
JSON of the catch branch. -/
inductive ProxyBody where
  | configError : String → ProxyBody
  | upstream : String → ProxyBody
  | transportError : String → ProxyBody
deriving DecidableEq

/-- A request the proxy issues to the upstream service. -/
structure UpCall where
  url : String
  method : String
  authHeader : String
  body : Option String
deriving DecidableEq

/-- `req.path.replace(/^\/api\/replicate/, "")`: strip the anchored
prefix when present. -/
def stripReplicatePfx (p : String) : String :=
  if strStarts p "/api/replicate" then strDropN p 14 else p

/-- `const targetUrl = ...`: the upstream URL, including the
`|| req.path` fallback of `targetPath`. -/
def replicateTargetUrl (p : String) : String :=
  "https://api.replicate.com/v1" ++ jsOrS (stripReplicatePfx p) p

/-- The `app.all` handler of the proxy: resolve the credential, bail
with a fixed 500 when it is falsy, otherwise forward to the upstream
URL with the credential attached, mirroring the upstream status and
body. Returns the upstream calls issued and the response sent. -/
def proxyHandle (cfg : ProxyConfig) (req : ProxyReq) (up : Option UpResp) :
    List UpCall × (Nat × ProxyBody) :=
  let apiToken := jsOrOpt cfg.envToken cfg.cfgToken
  if !(jsTruthyS apiToken) then
    ([], (500, .configError "Server configuration error: Missing API Token"))
  else
    let call : UpCall :=
      { url := replicateTargetUrl req.path
        method := req.method
        authHeader := "Token " ++ jsInterp apiToken
        body := if req.method == "POST" || req.method == "PUT" then some req.body else none }
    match up with
    | some r => ([call], (r.status, .upstream r.body))
    | none => ([call], (500, .transportError "Failed to proxy request"))

/-! ## Claims -/

/-- C9: for every prompt and tuning options, the `ltx-video` payload
never contains the prompt-enhancement field, while the `wan-2.5`
payload includes it as `enable_prompt_expansion`. -/
theorem c9_builder_respects_backend_fields (prompt : String) (o : BuildOpts) :
    "enable_prompt_expansion" ∉ payloadKeys (ltxPayloadBuilder prompt o) ∧
    "enable_prompt_expansion" ∈ payloadKeys (wanPayloadBuilder prompt o) := by
  constructor
  · rw [show payloadKeys (ltxPayloadBuilder prompt o) =
        ["version", "input", "prompt", "aspect_ratio", "negative_prompt",
         "guidance_scale"] from rfl]
    decide
  · rw [show payloadKeys (wanPayloadBuilder prompt o) =
        ["input", "prompt", "aspect_ratio", "negative_prompt",
         "guidance_scale", "enable_prompt_expansion"] from rfl]
    decide

/-- C6: a prompt that is empty after trimming (empty or whitespace-only)
makes `handleGenerate` fail immediately with the validation error
message, issuing zero network calls. -/
theorem c6_blank_prompt_validation (txt : String) (cfg : ModelConfig) (gs : ℚ)
    (ep : Bool) (tok : Option String) (sub : HttpResp) (polls : List HttpResp)
    (h : jsTrim txt = "") :
    handleGenerate txt cfg gs ep tok sub polls =
      ([], .errorMsg "Please enter a description for your video") := by
  simp [handleGenerate, h]

/-- Witness for C6 at the whitespace-only prompt "   ". -/
theorem c6_blank_prompt_validation_witness :
    handleGenerate "   " ltxConfig 3 true none ⟨200, none, ⟨"a", "starting", none⟩⟩ [] =
      ([], .errorMsg "Please enter a description for your video") :=
  c6_blank_prompt_validation "   " ltxConfig 3 true none _ _ (by decide)

/-- C2: polling continues exactly while the observed status is not
succeeded, failed or canceled: a terminal status at the loop head
issues no further poll, every issued poll is preceded by the fixed
2000 ms wait, and on an all-ok response stream the number of polls is
exactly the number of non-terminal observations. -/
theorem c2_poll_exactly_while_nonterminal (tok : Option String) (p : Prediction)
    (rs : List HttpResp) :
    (isTerminal p.status = true → (pollPhase tok p rs).1 = []) ∧
    (∀ c ∈ (pollPhase tok p rs).1, ∃ u h, c = NetCall.poll 2000 u h) ∧
    ((∀ r ∈ rs, respOk r = true) →
      (pollPhase tok p rs).1.length = pollsSpec p.status (rs.map (fun r => r.pred.status))) := by
  induction rs generalizing p with
  | nil =>
    refine ⟨fun h => by simp [pollPhase, h], ?_, ?_⟩
    · intro c hc
      by_cases h : isTerminal p.status
      · simp [pollPhase, h] at hc
      · simp [pollPhase, h] at hc
        exact ⟨_, _, hc⟩
    · intro _
      by_cases h : isTerminal p.status <;> simp [pollPhase, pollsSpec, h]
  | cons r rest ih =>
    by_cases h : isTerminal p.status
    · refine ⟨fun _ => by simp [pollPhase, h], ?_, ?_⟩
      · intro c hc
        simp [pollPhase, h] at hc
      · intro _
        simp [pollPhase, pollsSpec, h]
    · refine ⟨fun hc => absurd hc (by simp [h]), ?_, ?_⟩
      · intro c hc
        by_cases hok : respOk r
        · simp [pollPhase, h, hok] at hc
          rcases hc with hc | hc
          · exact ⟨_, _, hc⟩
          · exact (ih r.pred).2.1 c hc
        · simp [pollPhase, h, hok] at hc
          exact ⟨_, _, hc⟩
      · intro hall
        have hok : respOk r = true := hall r (by simp)
        have hrest : ∀ x ∈ rest, respOk x = true := fun x hx => hall x (by simp [hx])
        simp [pollPhase, h, hok, pollsSpec, (ih r.pred).2.2 hrest, Nat.add_comm]

/-- Witness for C2: a terminal start polls zero times; a `starting` job
whose first poll reports `succeeded` issues exactly one poll, of the
fixed 2000 ms shape. -/
theorem c2_poll_exactly_while_nonterminal_witness :
    (pollPhase none ⟨"x", "succeeded", some (.arr ["u"])⟩ []).1 = [] ∧
    (∃ u h, NetCall.poll 2000 (pollUrl "abc") (pollHeaders none) = NetCall.poll 2000 u h) ∧
    (pollPhase none ⟨"abc", "starting", none⟩
        [⟨200, none, ⟨"abc", "succeeded", some (.arr ["u"])⟩⟩]).1.length =
      pollsSpec "starting" ["succeeded"] := by
  refine ⟨(c2_poll_exactly_while_nonterminal none ⟨"x", "succeeded", some (.arr ["u"])⟩ []).1
      (by decide),
    (c2_poll_exactly_while_nonterminal none ⟨"abc", "starting", none⟩
        [⟨200, none, ⟨"abc", "succeeded", some (.arr ["u"])⟩⟩]).2.1
      (NetCall.poll 2000 (pollUrl "abc") (pollHeaders none)) (by decide),
    (c2_poll_exactly_while_nonterminal none ⟨"abc", "starting", none⟩
        [⟨200, none, ⟨"abc", "succeeded", some (.arr ["u"])⟩⟩]).2.2
      (by decide)⟩

/-- C3: a non-success HTTP status at submission or poll time transitions
directly to Failed, with the message taken from the body's `detail`
field when present (non-empty; an absent detail — and, by the JS `||`,
an empty one — yields the generic fallback); in particular a 402
submission with detail "insufficient credit" fails with exactly that
message. -/
theorem c3_nonsuccess_transitions_to_failed (txt : String) (cfg : ModelConfig)
    (gs : ℚ) (ep : Bool) (tok : Option String) (sub : HttpResp)
    (polls : List HttpResp) (hval : jsTrim txt ≠ "") :
    (respOk sub = false →
      (handleGenerate txt cfg gs ep tok sub polls).2 =
        .errorMsg (jsOrDetail sub.detail "Failed to start video generation")) ∧
    (∀ p r rest, isTerminal p.status = false → respOk r = false →
      (pollPhase tok p (r :: rest)).2 =
        .errorMsg (jsOrDetail r.detail "Failed to poll status")) ∧
    (∀ d fb, sub.detail = some d → d ≠ "" → jsOrDetail sub.detail fb = d) ∧
    (∀ fb, sub.detail = none → jsOrDetail sub.detail fb = fb) ∧
    (handleGenerate "a cat riding a bicycle" ltxConfig 3 true none
        ⟨402, some "insufficient credit", ⟨"", "", none⟩⟩ []).2 =
      .errorMsg "insufficient credit" := by
  refine ⟨?_, ?_, ?_, ?_, ?_⟩
  · intro hok
    simp [handleGenerate, hval, hok]
  · intro p r rest ht hr
    simp [pollPhase, ht, hr]
  · intro d fb hd hne
    simp [jsOrDetail, hd, hne]
  · intro fb hd
    simp [jsOrDetail, hd]
  · decide

/-- Witness for C3: the 402 submission and a 500 poll response, plus the
two message cases, at concrete inputs. -/
theorem c3_nonsuccess_transitions_to_failed_witness :
    (handleGenerate "a cat" ltxConfig 3 true none
        ⟨402, some "insufficient credit", ⟨"", "", none⟩⟩ []).2 =
      .errorMsg (jsOrDetail (some "insufficient credit") "Failed to start video generation") ∧
    (pollPhase none ⟨"abc", "starting", none⟩ [⟨500, some "boom", ⟨"", "", none⟩⟩]).2 =
      .errorMsg (jsOrDetail (some "boom") "Failed to poll status") ∧
    jsOrDetail (some "insufficient credit") "Failed to start video generation" =
      "insufficient credit" ∧
    jsOrDetail none "Failed to poll status" = "Failed to poll status" := by
  have h1 := c3_nonsuccess_transitions_to_failed "a cat" ltxConfig 3 true none
    ⟨402, some "insufficient credit", ⟨"", "", none⟩⟩ [] (by decide)
  have h2 := c3_nonsuccess_transitions_to_failed "a cat" ltxConfig 3 true none
    ⟨500, none, ⟨"", "", none⟩⟩ [] (by decide)
  exact ⟨h1.1 (by decide),
    h1.2.1 ⟨"abc", "starting", none⟩ ⟨500, some "boom", ⟨"", "", none⟩⟩ [] (by decide) (by decide),
    h1.2.2.1 "insufficient credit" "Failed to start video generation" rfl (by decide),
    h2.2.2.2.1 "Failed to poll status" rfl⟩

/-- C4: on a succeeded status with a present output, the resolved media
location is the first element when the output is a sequence and the
value itself when it is a single (non-empty) value; Scenario A resolves
"https://cdn/x.mp4" with the success outcome. -/
theorem c4_succeeded_output_resolution :
    (∀ p x xs, p.status = "succeeded" → p.output = some (.arr (x :: xs)) →
      finishPred p = .videoUrlSet (some x)) ∧
    (∀ p s, p.status = "succeeded" → p.output = some (.single s) → s ≠ "" →
      finishPred p = .videoUrlSet (some s)) ∧
    (handleGenerate "a cat riding a bicycle" ltxConfig 3 true none
        ⟨201, none, ⟨"abc", "starting", none⟩⟩
        [⟨200, none, ⟨"abc", "succeeded", some (.arr ["https://cdn/x.mp4"])⟩⟩]) =
      ([.submit "/api/replicate/predictions" (submitHeaders none)
          (ltxPayloadBuilder "a cat riding a bicycle" ⟨ltxConfig.version, 3, true⟩),
        .poll 2000 "/api/replicate/predictions/abc" (pollHeaders none)],
       .videoUrlSet (some "https://cdn/x.mp4")) := by
  refine ⟨?_, ?_, by decide⟩
  · intro p x xs hs ho
    simp [finishPred, hs, ho, jsTruthyOut, mediaOf]
  · intro p s hs ho hne
    simp [finishPred, hs, ho, jsTruthyOut, mediaOf, hne]

/-- Witness for C4: a one-element sequence output and a single-value
output, both resolved. -/
theorem c4_succeeded_output_resolution_witness :
    finishPred ⟨"abc", "succeeded", some (.arr ["https://cdn/x.mp4"])⟩ =
      .videoUrlSet (some "https://cdn/x.mp4") ∧
    finishPred ⟨"abc", "succeeded", some (.single "https://cdn/y.mp4")⟩ =
      .videoUrlSet (some "https://cdn/y.mp4") :=
  ⟨c4_succeeded_output_resolution.1 ⟨"abc", "succeeded", some (.arr ["https://cdn/x.mp4"])⟩
      "https://cdn/x.mp4" [] rfl rfl,
   c4_succeeded_output_resolution.2.1 ⟨"abc", "succeeded", some (.single "https://cdn/y.mp4")⟩
      "https://cdn/y.mp4" rfl rfl (by decide)⟩

/-- C5: a succeeded status whose output field is absent takes the
failure branch (MalformedResult): the outcome is the failure message,
never a success outcome, and the loop issues no further poll. -/
theorem c5_succeeded_without_output_fails (p : Prediction) (tok : Option String)
    (rs : List HttpResp) (hs : p.status = "succeeded") (ho : p.output = none) :
    finishPred p = .errorMsg "Generation failed with status: succeeded" ∧
    (∀ u, finishPred p ≠ .videoUrlSet u) ∧
    pollPhase tok p rs = ([], .errorMsg "Generation failed with status: succeeded") := by
  have hf : finishPred p = .errorMsg "Generation failed with status: succeeded" := by
    simp [finishPred, hs, ho, jsTruthyOut]
  refine ⟨hf, fun u => by simp [hf], ?_⟩
  have ht : isTerminal p.status = true := by simp [isTerminal, hs]
  cases rs <;> simp [pollPhase, ht, hf]

/-- Witness for C5 at a concrete succeeded-without-output prediction. -/
theorem c5_succeeded_without_output_fails_witness :
    finishPred ⟨"abc", "succeeded", none⟩ =
      .errorMsg "Generation failed with status: succeeded" ∧
    finishPred ⟨"abc", "succeeded", none⟩ ≠ .videoUrlSet (some "https://cdn/x.mp4") ∧
    pollPhase none ⟨"abc", "succeeded", none⟩ [] =
      ([], .errorMsg "Generation failed with status: succeeded") :=
  ⟨(c5_succeeded_without_output_fails ⟨"abc", "succeeded", none⟩ none [] rfl rfl).1,
   (c5_succeeded_without_output_fails ⟨"abc", "succeeded", none⟩ none [] rfl rfl).2.1
      (some "https://cdn/x.mp4"),
   (c5_succeeded_without_output_fails ⟨"abc", "succeeded", none⟩ none [] rfl rfl).2.2⟩

/-- C10: a succeeded status with an empty-sequence output takes the
success branch (an array is JS-truthy even when empty): the video URL
is set to the absent value and no failure is raised. -/
theorem c10_empty_output_array_succeeds (p : Prediction)
    (hs : p.status = "succeeded") (ho : p.output = some (.arr [])) :
    finishPred p = .videoUrlSet none ∧
    (∀ m, finishPred p ≠ .errorMsg m) := by
  have hf : finishPred p = .videoUrlSet none := by
    simp [finishPred, hs, ho, jsTruthyOut, mediaOf]
  exact ⟨hf, fun m => by simp [hf]⟩

/-- Witness for C10 at a concrete empty-array output. -/
theorem c10_empty_output_array_succeeds_witness :
    finishPred ⟨"abc", "succeeded", some (.arr [])⟩ = .videoUrlSet none ∧
    finishPred ⟨"abc", "succeeded", some (.arr [])⟩ ≠
      .errorMsg "Generation failed with status: succeeded" :=
  ⟨(c10_empty_output_array_succeeds ⟨"abc", "succeeded", some (.arr [])⟩ rfl rfl).1,
   (c10_empty_output_array_succeeds ⟨"abc", "succeeded", some (.arr [])⟩ rfl rfl).2
      "Generation failed with status: succeeded"⟩

/-- C7: with no configured credential the proxy answers every request
with the fixed 500 configuration-error body — a body distinct by
construction from the upstream pass-through and transport-error
bodies — and issues zero upstream calls. -/
theorem c7_missing_credential_config_error (cfg : ProxyConfig) (req : ProxyReq)
    (up : Option UpResp) (h1 : cfg.envToken = none) (h2 : cfg.cfgToken = none) :
    proxyHandle cfg req up =
      ([], (500, .configError "Server configuration error: Missing API Token")) ∧
    (∀ b, ProxyBody.configError "Server configuration error: Missing API Token" ≠
      .upstream b) ∧
    (∀ d, ProxyBody.configError "Server configuration error: Missing API Token" ≠
      .transportError d) := by
  refine ⟨?_, fun b => by simp, fun d => by simp⟩
  simp [proxyHandle, h1, h2, jsOrOpt, jsTruthyS]

/-- Witness for C7: a concrete POST against an unconfigured proxy, even
with a reachable upstream, never calls it. -/
theorem c7_missing_credential_config_error_witness :
    proxyHandle ⟨none, none⟩ ⟨"/api/replicate/predictions", "POST", "p"⟩ (some ⟨201, "ok"⟩) =
      ([], (500, .configError "Server configuration error: Missing API Token")) ∧
    ProxyBody.configError "Server configuration error: Missing API Token" ≠ .upstream "e" ∧
    ProxyBody.configError "Server configuration error: Missing API Token" ≠
      .transportError "t" :=
  ⟨(c7_missing_credential_config_error ⟨none, none⟩
      ⟨"/api/replicate/predictions", "POST", "p"⟩ (some ⟨201, "ok"⟩) rfl rfl).1,
   (c7_missing_credential_config_error ⟨none, none⟩
      ⟨"/api/replicate/predictions", "POST", "p"⟩ (some ⟨201, "ok"⟩) rfl rfl).2.1 "e",
   (c7_missing_credential_config_error ⟨none, none⟩
      ⟨"/api/replicate/predictions", "POST", "p"⟩ (some ⟨201, "ok"⟩) rfl rfl).2.2 "t"⟩

/-- C8 counterexample: the path that is exactly the prefix starts with
the prefix, strips to the empty string, and — through the
`|| req.path` fallback — yields the upstream URL with the full
original path appended, not the stripped one the claim prescribes. -/
theorem c8_path_equal_to_prefix_counterexample :
    strStarts "/api/replicate" "/api/replicate" = true ∧
    stripReplicatePfx "/api/replicate" = "" ∧
    replicateTargetUrl "/api/replicate" = "https://api.replicate.com/v1/api/replicate" ∧
    replicateTargetUrl "/api/replicate" ≠
      "https://api.replicate.com/v1" ++ stripReplicatePfx "/api/replicate" := by
  refine ⟨by decide, by decide, by decide, by decide⟩

/-- C8 (amended): for paths that begin with the prefix and leave a
non-empty remainder after stripping, the upstream URL is the base
concatenated with the stripped path, and the single upstream call a
configured proxy issues targets exactly that URL. -/
theorem c8_url_from_stripped_path (p : String)
    (h1 : strStarts p "/api/replicate" = true) (h2 : stripReplicatePfx p ≠ "") :
    replicateTargetUrl p = "https://api.replicate.com/v1" ++ stripReplicatePfx p ∧
    (∀ cfg req up, jsTruthyS (jsOrOpt cfg.envToken cfg.cfgToken) = true → req.path = p →
      (proxyHandle cfg req up).1.map UpCall.url = [replicateTargetUrl p]) := by
  constructor
  · simp [replicateTargetUrl, jsOrS, h2]
  · intro cfg req up htok hp
    cases up <;> simp [proxyHandle, htok, hp]

/-- Witness for the amended C8 at the path "/api/replicate/predictions". -/
theorem c8_url_from_stripped_path_witness :
    replicateTargetUrl "/api/replicate/predictions" =
      "https://api.replicate.com/v1" ++ stripReplicatePfx "/api/replicate/predictions" ∧
    (proxyHandle ⟨some "tok", none⟩ ⟨"/api/replicate/predictions", "POST", "b"⟩
        (some ⟨201, "ok"⟩)).1.map UpCall.url =
      [replicateTargetUrl "/api/replicate/predictions"] :=
  ⟨(c8_url_from_stripped_path "/api/replicate/predictions" (by decide) (by decide)).1,
   (c8_url_from_stripped_path "/api/replicate/predictions" (by decide) (by decide)).2
      ⟨some "tok", none⟩ ⟨"/api/replicate/predictions", "POST", "b"⟩ (some ⟨201, "ok"⟩)
      (by decide) rfl⟩

/-- C1: with the client-side token variable configured to the upstream
credential, both client-issued requests of a run — the submission and
the poll — carry an Authorization header holding that credential
(contradicting the claim that client requests carry none), while the
gateway separately attaches its own configured credential to the
upstream call. -/
theorem c1_client_requests_carry_bearer_token :
    (handleGenerate "a cat riding a bicycle" ltxConfig 3 true (some "r8-secret-token")
        ⟨201, none, ⟨"abc", "starting", none⟩⟩
        [⟨200, none, ⟨"abc", "succeeded", some (.arr ["https://cdn/x.mp4"])⟩⟩]).1 =
      [.submit "/api/replicate/predictions"
          [("Content-Type", "application/json"), ("Authorization", "Bearer r8-secret-token")]
          (ltxPayloadBuilder "a cat riding a bicycle"
            ⟨some "8c47da666861d081eeb4d1261853087de23923a268a69b63febdf5dc1dee08e4", 3, true⟩),
       .poll 2000 "/api/replicate/predictions/abc"
          [("Authorization", "Bearer r8-secret-token")]] ∧
    (proxyHandle ⟨some "r8-secret-token", none⟩
        ⟨"/api/replicate/predictions", "POST", "payload"⟩ (some ⟨201, "ok"⟩)).1 =
      [⟨"https://api.replicate.com/v1/predictions", "POST", "Token r8-secret-token",
        some "payload"⟩] := by
  refine ⟨by decide, by decide⟩
